import Mathlib

/-!
Shallow embedding of `wifi_speed.py` (repository kimduyquan0987/wifi_speed).

Conventions used throughout:
  * Python floats are modelled as rationals (every value occurring in the
    program and the spec is an exact decimal).
  * Fallible Python code is modelled with `Except Unit` (an `error` is a
    raised exception; the distinction between exception classes is never
    observed by the program, every handler is a bare `except`).
  * External effects (subprocess execution, `shutil.which`, the in-process
    speedtest library) are passed in explicitly as environment parameters;
    the functions of the program are then pure functions of that environment,
    transcribed line by line from the source.
-/

-- ===========================================================================
-- Python `float(str)` coercion (used by the parsers and the normalizer).
-- ===========================================================================

/-- Numeric value of a list of decimal digit characters. -/
def natOfDigits (cs : List Char) : Nat :=
  cs.foldl (fun n c => n * 10 + (c.toNat - 48)) 0

/-- Whitespace stripped by Python float() around a numeric string. -/
def isPySpace (c : Char) : Bool :=
  c == ' ' || c == '\t' || c == '\n' || c == '\r'

/-- Exponent suffix of a float literal: optional sign then digits.
Returns the integer exponent, or `none` if the text is not a valid suffix. -/
def parseExpSuffix (t : List Char) : Option Int :=
  let (esign, t1) : Int × List Char :=
    match t with
    | '+' :: t2 => (1, t2)
    | '-' :: t2 => (-1, t2)
    | t2 => (1, t2)
  let eds := t1.takeWhile Char.isDigit
  let rest := t1.dropWhile Char.isDigit
  if eds.isEmpty || !rest.isEmpty then none
  else some (esign * (natOfDigits eds : Int))

/-- Python `float(s)` on a string: optional surrounding whitespace, optional
sign, decimal mantissa (digits, optionally with one dot), optional exponent.
Returns `none` when Python would raise `ValueError`.  (The special spellings
`inf` and `nan` are not representable as rationals and are not modelled; no
captured group of this program can produce them, since every capture class
matches only backslash, the letter d and the dot.) -/
def pyFloatOfString (s : String) : Option ℚ :=
  let cs := (s.data.dropWhile isPySpace).reverse.dropWhile isPySpace |>.reverse
  let (sign, cs1) : ℚ × List Char :=
    match cs with
    | '+' :: t => (1, t)
    | '-' :: t => (-1, t)
    | t => (1, t)
  let intPart := cs1.takeWhile Char.isDigit
  let rest1 := cs1.dropWhile Char.isDigit
  let (fracPart, rest2) : List Char × List Char :=
    match rest1 with
    | '.' :: t => (t.takeWhile Char.isDigit, t.dropWhile Char.isDigit)
    | t => ([], t)
  if intPart.isEmpty && fracPart.isEmpty then none
  else
    let mant : ℚ := (natOfDigits intPart : ℚ) +
      (natOfDigits fracPart : ℚ) / ((10 : ℚ) ^ fracPart.length)
    match rest2 with
    | [] => some (sign * mant)
    | e :: t =>
      if e == 'e' || e == 'E' then
        match parseExpSuffix t with
        | some z => some (sign * mant * (10 : ℚ) ^ z)
        | none => none
      else none

-- ===========================================================================
-- JSON documents and the Python dict/float operations used on them.
-- ===========================================================================

/-- A parsed JSON document (the value `json.loads` produces). -/
inductive Json where
  | null
  | bool (b : Bool)
  | num (q : ℚ)
  | str (s : String)
  | arr (elems : List Json)
  | obj (fields : List (String × Json))

/-- Lookup of a key in a JSON object's field list.  `json.loads` builds a
Python dict in which a repeated key keeps the last occurrence, so the lookup
prefers later fields. -/
def jget : List (String × Json) → String → Option Json
  | [], _ => none
  | (k, v) :: rest, key =>
    match jget rest key with
    | some w => some w
    | none => if k == key then some v else none

/-- Python truthiness of a JSON value (`bool(x)`). -/
def truthy : Json → Bool
  | .null => false
  | .bool b => b
  | .num q => decide (q ≠ 0)
  | .str s => !(s.isEmpty)
  | .arr xs => !xs.isEmpty
  | .obj fs => !fs.isEmpty

/-- Truthiness of an optional value, where `none` is Python `None` (falsy). -/
def optTruthy : Option Json → Bool
  | some j => truthy j
  | none => false

/-- Python `data.get(key)` (default `None`): returns the value or `None`;
raises `AttributeError` when `data` is not a dict. -/
def pyGet (j : Json) (k : String) : Except Unit (Option Json) :=
  match j with
  | .obj fs => .ok (jget fs k)
  | _ => .error ()

/-- Python `data[key]`: raises `KeyError` on a missing key and `TypeError`
when `data` is not a dict. -/
def pySubscript (j : Json) (k : String) : Except Unit Json :=
  match j with
  | .obj fs =>
    match jget fs k with
    | some v => .ok v
    | none => .error ()
  | _ => .error ()

/-- Python `float(x)` on a JSON value: numbers pass through, booleans become
0 or 1, strings are parsed, anything else raises (`TypeError`). -/
def pyFloat : Json → Option ℚ
  | .num q => some q
  | .bool b => some (if b then 1 else 0)
  | .str s => pyFloatOfString s
  | _ => none

-- ===========================================================================
-- run_speedtest (wifi_speed.py lines 132-172).
-- ===========================================================================

/-- The record `run_speedtest` returns (its `timestamp` field is
`datetime.now()`, wall-clock time, not modelled). -/
structure SpeedResult where
  download_bps : ℚ
  upload_bps : ℚ
  ping_ms : ℚ
deriving DecidableEq

/-- An intermediate Python value inside the normalization code: either a value
taken directly from the JSON document or a float produced by `float(...)`. -/
inductive PyVal where
  | json (j : Json)
  | flt (q : ℚ)

/-- Python `float(v)` on an intermediate value. -/
def pyFloatPyVal : PyVal → Except Unit ℚ
  | .json j =>
    match pyFloat j with
    | some q => .ok q
    | none => .error ()
  | .flt q => .ok q

/-- Python `float(v)` where `v` may be `None` (`float(None)` raises
`TypeError`). -/
def pyFloatOptPyVal : Option PyVal → Except Unit ℚ
  | none => .error ()
  | some v => pyFloatPyVal v

/-- Line 158, third operand of the or-chain:
`float(data.get('latency', 0))`. -/
def pingLatency (data : Json) : Except Unit PyVal :=
  match pyGet data "latency" with
  | .error e => .error e
  | .ok lat =>
    match pyFloat (lat.getD (.num 0)) with
    | some q => .ok (.flt q)
    | none => .error ()

/-- Line 158, second operand of the or-chain:
`data.get('server', ...).get('ping', None)`, falling through to the
latency lookup when falsy. -/
def pingServer (data : Json) : Except Unit PyVal :=
  match pyGet data "server" with
  | .error e => .error e
  | .ok srv =>
    match pyGet (srv.getD (.obj [])) "ping" with
    | .error e => .error e
    | .ok p2 =>
      match p2 with
      | some j => if truthy j then .ok (.json j) else pingLatency data
      | none => pingLatency data

/-- Line 158:
`ping = data.get('ping') or data.get('server', ...).get('ping', None) or
float(data.get('latency', 0))`. -/
def pingVal (data : Json) : Except Unit PyVal :=
  match pyGet data "ping" with
  | .error e => .error e
  | .ok p1 =>
    match p1 with
    | some j => if truthy j then .ok (.json j) else pingServer data
    | none => pingServer data

/-- Line 159:
`dl = data.get('download') or data.get('bytes_sent', None) or
data.get('downloadBytes', None)`. -/
def dlChain (data : Json) : Except Unit (Option Json) :=
  match pyGet data "download" with
  | .error e => .error e
  | .ok a =>
    if optTruthy a then .ok a
    else
      match pyGet data "bytes_sent" with
      | .error e => .error e
      | .ok b =>
        if optTruthy b then .ok b else pyGet data "downloadBytes"

/-- Line 160:
`ul = data.get('upload') or data.get('bytes_received', None) or
data.get('uploadBytes', None)`. -/
def ulChain (data : Json) : Except Unit (Option Json) :=
  match pyGet data "upload" with
  | .error e => .error e
  | .ok a =>
    if optTruthy a then .ok a
    else
      match pyGet data "bytes_received" with
      | .error e => .error e
      | .ok b =>
        if optTruthy b then .ok b else pyGet data "uploadBytes"

/-- `float(data[key]['bandwidth']) * 8` (lines 165-166). -/
def bandwidth8 (data : Json) (key : String) : Except Unit ℚ :=
  match pySubscript data key with
  | .error e => .error e
  | .ok sub =>
    match pySubscript sub "bandwidth" with
    | .error e => .error e
    | .ok bw =>
      match pyFloat bw with
      | some q => .ok (q * 8)
      | none => .error ()

/-- Lines 162-168: the guarded inner try block.  When `dl is None or ul is
None`, attempt the nested-bandwidth assignments; the first assignment that
raises aborts the block (`except Exception: pass`), keeping any assignment
already made.  Values surviving from the chains are tagged `.json`; the
nested assignments produce floats. -/
def nestedFix (data : Json) (dl0 ul0 : Option Json) : Option PyVal × Option PyVal :=
  if dl0.isNone || ul0.isNone then
    match bandwidth8 data "download" with
    | .error _ => (dl0.map .json, ul0.map .json)
    | .ok q =>
      match bandwidth8 data "upload" with
      | .error _ => (some (.flt q), ul0.map .json)
      | .ok r => (some (.flt q), some (.flt r))
  else (dl0.map .json, ul0.map .json)

/-- Lines 156-169: the body of one CLI attempt after `json.loads` succeeded —
the prioritized field lookups and the final
`return dict of float(dl), float(ul), float(ping)`.  An `error` is an
exception inside the attempt (caught at line 170 and turned into `continue`). -/
def speedtestNormalize (data : Json) : Except Unit SpeedResult :=
  match pingVal data with
  | .error e => .error e
  | .ok ping =>
    match dlChain data with
    | .error e => .error e
    | .ok dl0 =>
      match ulChain data with
      | .error e => .error e
      | .ok ul0 =>
        match nestedFix data dl0 ul0 with
        | (dl, ul) =>
          match pyFloatOptPyVal dl with
          | .error e => .error e
          | .ok dlq =>
            match pyFloatOptPyVal ul with
            | .error e => .error e
            | .ok ulq =>
              match pyFloatPyVal ping with
              | .error e => .error e
              | .ok pingq => .ok ⟨dlq, ulq, pingq⟩

/-- The environment `run_speedtest` runs in:
  * `primary`: outcome of the in-process library path (lines 134-143);
    `some r` when it returns `r`, `none` when any exception occurred
    (library missing, network failure, ...), which line 144 catches.
  * `prog`: result of `shutil.which('speedtest-cli') or
    shutil.which('speedtest')` (line 146).
  * `invoke`: one CLI invocation (lines 152-156) collapsed to its parsed JSON
    document; `none` when the subprocess raised, produced no output, or the
    output was not valid JSON — all of which the attempt-level handler at
    line 170 treats identically (`continue`). -/
structure SpeedtestEnv where
  primary : Option SpeedResult
  prog : Option String
  invoke : List String → Option Json

/-- Lines 150-171: the loop over candidate argument vectors; each attempt that
raises anywhere is skipped, the first complete result is returned. -/
def tryVariants (invoke : List String → Option Json) :
    List (List String) → Except String SpeedResult
  | [] => .error "Unable to run speedtest via module or CLI."
  | args :: rest =>
    match invoke args with
    | none => tryVariants invoke rest
    | some data =>
      match speedtestNormalize data with
      | .ok r => .ok r
      | .error _ => tryVariants invoke rest

/-- Lines 132-172: `run_speedtest`.  The in-process path wins when it
succeeds; otherwise the CLI fallback runs with the three candidate argument
vectors of line 150. -/
def run_speedtest (env : SpeedtestEnv) : Except String SpeedResult :=
  match env.primary with
  | some r => .ok r
  | none =>
    match env.prog with
    | none => .error "speedtest module/CLI not found. Install with: pip install speedtest-cli or install Ookla Speedtest CLI."
    | some prog =>
      tryVariants env.invoke
        [[prog, "--json"], [prog, "--format=json"], [prog, "--json"]]

-- ===========================================================================
-- run_cmd (wifi_speed.py lines 47-52) and the subprocess environment.
-- ===========================================================================

/-- Outcome of `subprocess.run(cmd, shell=True, capture_output=True,
text=True, timeout=6)` for one command string.  With `shell=True` a missing
executable or a non-zero exit status does NOT raise: the shell completes
(typically with code 127 and an error message on stderr) and the captured
streams are returned.  `raised` models `TimeoutExpired` or any other
exception from `subprocess.run` itself. -/
inductive ProcOutcome where
  | completed (stdout stderr : String) (returncode : Int)
  | raised

/-- The timeout passed to `subprocess.run` at line 49. -/
def runCmdTimeoutSeconds : Nat := 6

/-- Lines 47-52: `run_cmd` returns `proc.stdout + proc.stderr`, and the empty
string when `subprocess.run` raised. -/
def runCmd (env : String → ProcOutcome) (cmd : String) : String :=
  match env cmd with
  | .completed out err _ => out ++ err
  | .raised => ""

-- ===========================================================================
-- The regular expressions of the link-speed parsers.
--
-- Every pattern in the source is written inside a RAW string with doubled
-- backslashes, e.g. r'Bit Rate[:=]\\s*([\\d\\.]+)\\s*Mb'.  In a raw string
-- \\ stays two characters, and the regex engine reads \\ as an escaped
-- literal backslash.  So \\s* is "a backslash, then zero or more s", and
-- [\\d\\.] is the character class containing backslash, d and dot.
-- The engine below implements exactly the constructs these nine patterns
-- use, with Python's leftmost-position, greedy-with-backtracking semantics.
-- ===========================================================================

/-- One pattern character against one input character, honouring
`re.IGNORECASE` when `ci` is true. -/
def charMatches (ci : Bool) (c x : Char) : Bool :=
  if ci then c.toLower == x.toLower else c == x

/-- Character-class membership test. -/
def clsMatches (ci : Bool) (cs : List Char) (x : Char) : Bool :=
  cs.any (fun c => charMatches ci c x)

/-- The elements the nine patterns compile to. -/
inductive PatElem where
  | lit (ci : Bool) (c : Char)
  | cls (ci : Bool) (cs : List Char)
  | clsOpt (ci : Bool) (cs : List Char)
  | star (ci : Bool) (c : Char)
  | clsPlus (ci : Bool) (cs : List Char)
  | capCls (ci : Bool) (cs : List Char)
  | capLits (ci : Bool) (l : List Char)
  | altLits (ci : Bool) (a b : List Char)

/-- Match a literal character sequence at the head of the input, returning
the consumed input slice and the rest. -/
def litSeqGo (ci : Bool) : List Char → List Char → Option (List Char × List Char)
  | [], s => some ([], s)
  | c :: ps, x :: s =>
    if charMatches ci c x then
      match litSeqGo ci ps s with
      | some (cons, rest) => some (x :: cons, rest)
      | none => none
    else none
  | _ :: _, [] => none

/-- Greedy `c*`: consume as many copies of `c` as possible, backtracking one
at a time until the continuation `k` succeeds on the remainder. -/
def starGo (k : List Char → Option (List Char)) (ci : Bool) (c : Char) :
    List Char → Option (List Char)
  | x :: s =>
    if charMatches ci c x then
      match starGo k ci c s with
      | some r => some r
      | none => k (x :: s)
    else k (x :: s)
  | [] => k []

/-- Greedy `[cls]+` having already consumed `acc` (at least one character):
prefer extending, backtrack to shorter matches until the continuation
succeeds.  When `cap` is true this element is the capture group whose text
the program reads, and its consumed slice `acc` replaces the continuation's
capture. -/
def plusGo (k : List Char → Option (List Char)) (ci : Bool) (cs : List Char)
    (cap : Bool) (acc : List Char) : List Char → Option (List Char)
  | x :: s =>
    if clsMatches ci cs x then
      match plusGo k ci cs cap (acc ++ [x]) s with
      | some r => some r
      | none =>
        match k (x :: s) with
        | some r => some (if cap then acc else r)
        | none => none
    else
      match k (x :: s) with
      | some r => some (if cap then acc else r)
      | none => none
  | [] =>
    match k [] with
    | some r => some (if cap then acc else r)
    | none => none

/-- Try the second branch of an alternation. -/
def altSnd (k : List Char → Option (List Char)) (ci : Bool) (b : List Char)
    (s : List Char) : Option (List Char) :=
  match litSeqGo ci b s with
  | some (_, rest) => k rest
  | none => none

/-- Match a compiled pattern at the current position, returning the text of
the capture group the program reads (each pattern has exactly one). -/
def matchSeq : List PatElem → List Char → Option (List Char)
  | [], _ => some []
  | .lit ci c :: es, x :: s => if charMatches ci c x then matchSeq es s else none
  | .lit _ _ :: _, [] => none
  | .cls ci cs :: es, x :: s => if clsMatches ci cs x then matchSeq es s else none
  | .cls _ _ :: _, [] => none
  | .clsOpt ci cs :: es, x :: s =>
    if clsMatches ci cs x then
      match matchSeq es s with
      | some r => some r
      | none => matchSeq es (x :: s)
    else matchSeq es (x :: s)
  | .clsOpt _ _ :: es, [] => matchSeq es []
  | .star ci c :: es, s => starGo (matchSeq es) ci c s
  | .clsPlus ci cs :: es, x :: s =>
    if clsMatches ci cs x then plusGo (matchSeq es) ci cs false [x] s else none
  | .clsPlus _ _ :: _, [] => none
  | .capCls ci cs :: es, x :: s =>
    if clsMatches ci cs x then plusGo (matchSeq es) ci cs true [x] s else none
  | .capCls _ _ :: _, [] => none
  | .capLits ci l :: es, s =>
    match litSeqGo ci l s with
    | some (cons, rest) =>
      match matchSeq es rest with
      | some _ => some cons
      | none => none
    | none => none
  | .altLits ci a b :: es, s =>
    match litSeqGo ci a s with
    | some (_, rest) =>
      match matchSeq es rest with
      | some r => some r
      | none => altSnd (matchSeq es) ci b s
    | none => altSnd (matchSeq es) ci b s

/-- `re.search`: try the pattern at every start position, leftmost first. -/
def searchPat (es : List PatElem) : List Char → Option (List Char)
  | [] => matchSeq es []
  | x :: s =>
    match matchSeq es (x :: s) with
    | some r => some r
    | none => searchPat es s

/-- The character class `[\\d\\.]`: backslash, d, dot. -/
def numCls : List Char := ['\\', 'd', '.']

/-- Literal elements for each character of a string (case-insensitive). -/
def litsCI (s : String) : List PatElem := s.data.map (PatElem.lit true)

/-- Literal elements for each character of a string (case-sensitive). -/
def litsCS (s : String) : List PatElem := s.data.map (PatElem.lit false)

/-- Line 56, compiled: `Receive rate \\(Mbps\\)\\s*:\\s*([\\d\\.]+)` with
IGNORECASE.  Group 1 — the one the code reads — is `(Mbps\\)`, whose text is
a casing of `Mbps` followed by a backslash; the trailing `([\\d\\.]+)` is
group 2 and is not read. -/
def patWinReceive : List PatElem :=
  litsCI "Receive rate " ++
  [.lit true '\\', .capLits true ("Mbps\\".data), .lit true '\\',
   .star true 's', .lit true ':', .lit true '\\', .star true 's',
   .clsPlus true numCls]

/-- Line 59, compiled: `Transmit rate \\(Mbps\\)\\s*:\\s*([\\d\\.]+)` with
IGNORECASE. -/
def patWinTransmit : List PatElem :=
  litsCI "Transmit rate " ++
  [.lit true '\\', .capLits true ("Mbps\\".data), .lit true '\\',
   .star true 's', .lit true ':', .lit true '\\', .star true 's',
   .clsPlus true numCls]

/-- Line 63, compiled: `([\\d\\.]+)\\s*Mbps` with IGNORECASE. -/
def patWinBare : List PatElem :=
  [.capCls true numCls, .lit true '\\', .star true 's'] ++ litsCI "Mbps"

/-- Line 74, compiled: `Bit Rate[:=]\\s*([\\d\\.]+)\\s*Mb` with IGNORECASE. -/
def patLinuxBitRate : List PatElem :=
  litsCI "Bit Rate" ++
  [.cls true [':', '='], .lit true '\\', .star true 's',
   .capCls true numCls, .lit true '\\', .star true 's'] ++ litsCI "Mb"

/-- Line 78, compiled: `(tx|rx) bitrate[:=]?\\s*([\\d\\.]+)\\s*M` with
IGNORECASE; the code reads group 2, the class group. -/
def patLinuxIw : List PatElem :=
  [.altLits true "tx".data "rx".data, .lit true ' '] ++ litsCI "bitrate" ++
  [.clsOpt true [':', '='], .lit true '\\', .star true 's',
   .capCls true numCls, .lit true '\\', .star true 's', .lit true 'M']

/-- Line 96, compiled: `([\\d\\.]+)M`, case-sensitive. -/
def patNmcli : List PatElem :=
  [.capCls false numCls, .lit false 'M']

/-- Line 103, compiled: `lastTxRate:\\s*([\\d\\.]+)`, case-sensitive. -/
def patMacLastTx : List PatElem :=
  litsCS "lastTxRate:" ++
  [.lit false '\\', .star false 's', .capCls false numCls]

/-- Line 106, compiled: `([\\d\\.]+)\\s*Mb/s`, case-sensitive. -/
def patMacBare : List PatElem :=
  [.capCls false numCls, .lit false '\\', .star false 's'] ++ litsCS "Mb/s"

-- ===========================================================================
-- The platform parsers and probers (wifi_speed.py lines 54-129).
-- ===========================================================================

/-- `return float(m.group(...))` on a successful match: `ok (some q)` when
the captured text parses, `error` when `float` raises `ValueError`. -/
def floatOfGroup (g : List Char) : Except Unit (Option ℚ) :=
  match pyFloatOfString (String.mk g) with
  | some q => .ok (some q)
  | none => .error ()

/-- Lines 54-66: `parse_windows_netsh`. -/
def parse_windows_netsh (output : String) : Except Unit (Option ℚ) :=
  match searchPat patWinReceive output.data with
  | some g => floatOfGroup g
  | none =>
    match searchPat patWinTransmit output.data with
    | some g => floatOfGroup g
    | none =>
      match searchPat patWinBare output.data with
      | some g => floatOfGroup g
      | none => .ok none

/-- Lines 72-81: `parse_linux_iwconfig`. -/
def parse_linux_iwconfig (output : String) : Except Unit (Option ℚ) :=
  match searchPat patLinuxBitRate output.data with
  | some g => floatOfGroup g
  | none =>
    match searchPat patLinuxIw output.data with
    | some g => floatOfGroup g
    | none => .ok none

/-- Lines 101-109: `parse_macos_airport`. -/
def parse_macos_airport (output : String) : Except Unit (Option ℚ) :=
  match searchPat patMacLastTx output.data with
  | some g => floatOfGroup g
  | none =>
    match searchPat patMacBare output.data with
    | some g => floatOfGroup g
    | none => .ok none

/-- Lines 68-70: `get_windows_link_speed`. -/
def get_windows_link_speed (env : String → ProcOutcome) : Except Unit (Option ℚ) :=
  parse_windows_netsh (runCmd env "netsh wlan show interfaces")

/-- The nmcli command string of line 95 (the quotes around ^yes are part of
the shell command). -/
def nmcliCmd : String :=
  "nmcli -t -f ACTIVE,SSID,BITRATE dev wifi | grep \x27^yes\x27 2>/dev/null"

/-- Python truthiness of the value of `speed` (`if speed:`): a float is
truthy when non-zero, `None` is falsy. -/
def qOptTruthy : Option ℚ → Bool
  | some q => decide (q ≠ 0)
  | none => false

/-- Lines 83-99: `get_linux_link_speed` — iwconfig, then iw, then nmcli. -/
def get_linux_link_speed (env : String → ProcOutcome) : Except Unit (Option ℚ) :=
  match parse_linux_iwconfig (runCmd env "iwconfig 2>/dev/null") with
  | .error e => .error e
  | .ok speed =>
    if qOptTruthy speed then .ok speed
    else
      match parse_linux_iwconfig (runCmd env "iw dev wlan0 link 2>/dev/null") with
      | .error e => .error e
      | .ok speed2 =>
        if qOptTruthy speed2 then .ok speed2
        else
          match searchPat patNmcli (runCmd env nmcliCmd).data with
          | some g => floatOfGroup g
          | none => .ok none

/-- The airport invocation of lines 113-114. -/
def airportCmd : String :=
  "/System/Library/PrivateFrameworks/Apple80211.framework/Versions/Current/Resources/airport -I 2>/dev/null"

/-- Lines 111-116: `get_macos_link_speed`. -/
def get_macos_link_speed (env : String → ProcOutcome) : Except Unit (Option ℚ) :=
  parse_macos_airport (runCmd env airportCmd)

/-- Does the first list begin with the second?  (Python `str.startswith`,
character by character.) -/
def startsChars : List Char → List Char → Bool
  | _, [] => true
  | [], _ :: _ => false
  | x :: s, c :: p => c == x && startsChars s p

/-- Python `p.startswith(pre)` on strings. -/
def pyStartsWith (s pre : String) : Bool := startsChars s.data pre.data

/-- Lines 118-129: `get_link_speed` — platform dispatch on `sys.platform`
inside `try: ... except Exception: return None`; an unrecognized platform
falls through to `return None`. -/
def get_link_speed (p : String) (env : String → ProcOutcome) : Option ℚ :=
  let r : Except Unit (Option ℚ) :=
    if pyStartsWith p "win" then get_windows_link_speed env
    else if pyStartsWith p "linux" then get_linux_link_speed env
    else if pyStartsWith p "darwin" then get_macos_link_speed env
    else .ok none
  match r with
  | .ok v => v
  | .error _ => none

-- ===========================================================================
-- The speedtest button handler (wifi_speed.py lines 29-34 and 290-312).
-- ===========================================================================

/-- The names bound at module scope of wifi_speed.py: the imports of lines
20-27, the conditional `import speedtest` of lines 29-34 (binding the module
name `speedtest` only when the import succeeds), the tkinter names of lines
37-39, and the module-level definitions.  The class `Speedtest` is never
bound: line 31 imports the module, and the `from speedtest import Speedtest`
of line 135 binds a local inside `run_speedtest` only. -/
def moduleGlobals (speedtestImportOk : Bool) : List String :=
  ["sys", "platform", "subprocess", "re", "threading", "time", "datetime",
   "json", "shutil"] ++
  (if speedtestImportOk then ["speedtest"] else []) ++
  ["tk", "ttk", "messagebox", "filedialog", "APP_TITLE", "LOG_FILE_DEFAULT",
   "run_cmd", "parse_windows_netsh", "get_windows_link_speed",
   "parse_linux_iwconfig", "get_linux_link_speed", "parse_macos_airport",
   "get_macos_link_speed", "get_link_speed", "run_speedtest", "human_bps",
   "WifiSpeedApp", "main"]

/-- Observable outcome of `WifiSpeedApp._run_speedtest` (lines 290-312). -/
inductive HandlerOutcome where
  | errorShown (status : String)
  | ranSpeedtest
deriving DecidableEq

/-- Lines 290-312: the handler first evaluates `Speedtest is None`.  An
unbound name raises `NameError`, caught by the `except Exception` branch
(status line 307, error dialog line 309); a bound-but-None value raises
`RuntimeError` into the same branch; only a bound non-None value reaches
`run_speedtest(...)`. -/
def appRunSpeedtestGuard (globals : List String) (speedtestClassIsNone : Bool) :
    HandlerOutcome :=
  if "Speedtest" ∈ globals then
    if speedtestClassIsNone then .errorShown "Error during speedtest"
    else .ranSpeedtest
  else .errorShown "Error during speedtest"

-- ===========================================================================
-- Claims.
-- ===========================================================================

/-- C1: the spec's golden scenario claims `parse_linux_iwconfig` on
`Bit Rate=54 Mb/s   Frequency:2.4 GHz` returns 54.0 and the Linux probe fed
this text yields 54.0.  The double-escaped pattern requires a literal
backslash after `Bit Rate=`, so it matches nothing in this text: the parser
returns None and the probe yields None (unknown). -/
theorem linux_iwconfig_golden_mismatch :
    parse_linux_iwconfig "Bit Rate=54 Mb/s   Frequency:2.4 GHz" = .ok none ∧
    get_link_speed "linux"
      (fun c => if c == "iwconfig 2>/dev/null"
        then .completed "Bit Rate=54 Mb/s   Frequency:2.4 GHz" "" 0
        else .completed "" "" 0) = none :=
  ⟨rfl, rfl⟩

/-- C7: the spec's golden scenario claims `parse_macos_airport` on
`lastTxRate: 866` returns 866.0.  The double-escaped pattern requires a
literal backslash after `lastTxRate:`, so nothing matches and the parser
returns None. -/
theorem macos_airport_golden_mismatch :
    parse_macos_airport "lastTxRate: 866" = .ok none ∧
    get_macos_link_speed (fun _ => .completed "lastTxRate: 866" "" 0) = .ok none :=
  ⟨rfl, rfl⟩

/-- The golden nested-bandwidth document of the spec. -/
def nestedGoldenDoc : Json :=
  .obj [("download", .obj [("bandwidth", .num 6750000)]),
        ("upload", .obj [("bandwidth", .num 1500000)]),
        ("ping", .num 8)]

/-- C2: the spec claims a document with only nested `download.bandwidth` /
`upload.bandwidth` yields `bandwidth * 8`.  In the code,
`data.get('download')` returns the (truthy) inner dict, so `dl is None` is
false, the nested-bandwidth branch is skipped, and `float(dl)` on a dict
raises: the attempt fails, and with every variant reading this document
`run_speedtest` raises its aggregate error instead of returning a result. -/
theorem nested_bandwidth_golden_mismatch :
    speedtestNormalize nestedGoldenDoc = .error () ∧
    run_speedtest ⟨none, some "speedtest-cli", fun _ => some nestedGoldenDoc⟩ =
      .error "Unable to run speedtest via module or CLI." :=
  ⟨rfl, rfl⟩

/-- C3 counterexample: a document lacking `ping` (and `server.ping` and
`latency`) does not make the attempt fail; the normalizer fabricates
`ping_ms = 0.0` from the `data.get('latency', 0)` default. -/
theorem missing_ping_fabricated :
    speedtestNormalize (.obj [("download", .num 54000000), ("upload", .num 12000000)]) =
      .ok ⟨54000000, 12000000, 0⟩ :=
  rfl

/-- C3 amended: a document carrying none of the download field alternatives
(`download`, `bytes_sent`, `downloadBytes`), or none of the upload field
alternatives (`upload`, `bytes_received`, `uploadBytes`), makes the attempt
fail; only the ping field is defaulted rather than required. -/
theorem missing_download_or_upload_fails (fs : List (String × Json))
    (h : (jget fs "download" = none ∧ jget fs "bytes_sent" = none ∧
          jget fs "downloadBytes" = none) ∨
         (jget fs "upload" = none ∧ jget fs "bytes_received" = none ∧
          jget fs "uploadBytes" = none)) :
    speedtestNormalize (Json.obj fs) = .error () := by
  rcases h with ⟨h1, h2, h3⟩ | ⟨h1, h2, h3⟩
  · have hdl : dlChain (Json.obj fs) = .ok none := by
      simp [dlChain, pyGet, h1, h2, h3, optTruthy]
    have hband : bandwidth8 (Json.obj fs) "download" = .error () := by
      simp [bandwidth8, pySubscript, h1]
    cases hp : pingVal (Json.obj fs) with
    | error e => cases e; simp [speedtestNormalize, hp]
    | ok ping =>
      cases hu : ulChain (Json.obj fs) with
      | error e => cases e; simp [speedtestNormalize, hp, hdl, hu]
      | ok ul0 =>
        simp [speedtestNormalize, hp, hdl, hu, nestedFix, hband, pyFloatOptPyVal]
  · have hul : ulChain (Json.obj fs) = .ok none := by
      simp [ulChain, pyGet, h1, h2, h3, optTruthy]
    have hband : bandwidth8 (Json.obj fs) "upload" = .error () := by
      simp [bandwidth8, pySubscript, h1]
    cases hp : pingVal (Json.obj fs) with
    | error e => cases e; simp [speedtestNormalize, hp]
    | ok ping =>
      cases hd : dlChain (Json.obj fs) with
      | error e => cases e; simp [speedtestNormalize, hp, hd]
      | ok dl0 =>
        cases hb : bandwidth8 (Json.obj fs) "download" with
        | error e =>
          cases dl0 with
          | none =>
            simp [speedtestNormalize, hp, hd, hul, nestedFix, hb, pyFloatOptPyVal]
          | some j =>
            cases hpf : pyFloat j with
            | none =>
              simp [speedtestNormalize, hp, hd, hul, nestedFix, hb,
                pyFloatOptPyVal, pyFloatPyVal, hpf]
            | some q =>
              simp [speedtestNormalize, hp, hd, hul, nestedFix, hb,
                pyFloatOptPyVal, pyFloatPyVal, hpf]
        | ok q =>
          simp [speedtestNormalize, hp, hd, hul, nestedFix, hb, hband,
            pyFloatOptPyVal, pyFloatPyVal]

/-- C3 amended, witness: a document whose only field is a ping value fails
(both throughput fields missing). -/
theorem missing_download_or_upload_fails_witness :
    speedtestNormalize (Json.obj [("ping", Json.num 1)]) = .error () :=
  missing_download_or_upload_fails [("ping", Json.num 1)]
    (Or.inl ⟨rfl, rfl, rfl⟩)

/-- C4: line 31 binds the module name `speedtest` (when the import succeeds)
and nothing binds `Speedtest` at module scope, so the guard of line 292
raises NameError whichever way the import went and whatever value the guard
would have tested; the handler always lands in its error branch (status
`Error during speedtest`, dialog) and `run_speedtest` is never reached from
the UI. -/
theorem speedtest_button_always_errors :
    ∀ (importOk guardValue : Bool),
      appRunSpeedtestGuard (moduleGlobals importOk) guardValue =
        .errorShown "Error during speedtest" := by
  decide

/-- C5 counterexample: on an output containing literal backslashes the
double-escaped pattern of `parse_linux_iwconfig` matches with captured group
`d`, and `float('d')` raises ValueError — the parser does not return a float
or None on every string. -/
theorem parser_raises_on_backslash_input :
    parse_linux_iwconfig "Bit Rate=\\d\\Mb" = .error () :=
  rfl

/-- C5 amended: a parser may raise (any successful match captures text made
of backslash, d and dot, which `float` rejects), but `get_link_speed` wraps
the dispatch in a bare except and returns None instead of raising — for
every platform and environment, including unrecognized platforms, and in
particular on the input that makes the Linux parser raise. -/
theorem get_link_speed_total :
    (∀ (p : String) (env : String → ProcOutcome),
        pyStartsWith p "win" = false → pyStartsWith p "linux" = false →
        pyStartsWith p "darwin" = false → get_link_speed p env = none) ∧
    get_link_speed "linux" (fun _ => .completed "Bit Rate=\\d\\Mb" "" 0) = none := by
  constructor
  · intro p env h1 h2 h3
    simp [get_link_speed, h1, h2, h3]
  · rfl

/-- C5 amended, witness: an unrecognized platform yields None, and the Linux
path swallows the parser exception. -/
theorem get_link_speed_total_witness :
    get_link_speed "sunos5" (fun _ => ProcOutcome.raised) = none ∧
    get_link_speed "linux" (fun _ => .completed "Bit Rate=\\d\\Mb" "" 0) = none :=
  ⟨get_link_speed_total.1 "sunos5" (fun _ => ProcOutcome.raised) rfl rfl rfl,
   get_link_speed_total.2⟩

/-- C6 counterexample: a document whose three top-level fields are numeric
but whose download is 0 does not come back unchanged — the falsy 0 is
dropped by the or-chain, the nested lookup raises, and the attempt fails. -/
theorem zero_download_not_returned :
    speedtestNormalize
      (.obj [("ping", .num 5), ("download", .num 0),
             ("upload", .num 12000000)]) = .error () :=
  rfl

/-- C6 amended: for every document whose top-level `ping`, `download` and
`upload` are nonzero numbers, the normalizer returns exactly those values,
with no unit conversion. -/
theorem toplevel_nonzero_fields_passthrough (fs : List (String × Json))
    (p d u : ℚ)
    (hping : jget fs "ping" = some (.num p)) (hp : p ≠ 0)
    (hdl : jget fs "download" = some (.num d)) (hd : d ≠ 0)
    (hul : jget fs "upload" = some (.num u)) (hu : u ≠ 0) :
    speedtestNormalize (Json.obj fs) = .ok ⟨d, u, p⟩ := by
  have h1 : pingVal (Json.obj fs) = .ok (.json (.num p)) := by
    simp [pingVal, pyGet, hping, truthy, hp]
  have h2 : dlChain (Json.obj fs) = .ok (some (.num d)) := by
    simp [dlChain, pyGet, hdl, optTruthy, truthy, hd]
  have h3 : ulChain (Json.obj fs) = .ok (some (.num u)) := by
    simp [ulChain, pyGet, hul, optTruthy, truthy, hu]
  simp [speedtestNormalize, h1, h2, h3, nestedFix, pyFloatOptPyVal,
    pyFloatPyVal, pyFloat]

/-- C6 amended, witness: the spec's golden top-level document. -/
theorem toplevel_nonzero_fields_passthrough_witness :
    speedtestNormalize
      (.obj [("ping", .num (123/10)), ("download", .num 54000000),
             ("upload", .num 12000000)]) =
      .ok ⟨54000000, 12000000, 123/10⟩ :=
  toplevel_nonzero_fields_passthrough _ _ _ _ rfl (by norm_num) rfl
    (by norm_num) rfl (by norm_num)

/-- C8: with the in-process path failed, a missing executable raises the
descriptive not-found error, and executables whose every invocation variant
fails to produce a complete parseable result raise the aggregate
cannot-run error; both surface as a single RuntimeError message. -/
theorem run_speedtest_error_messages :
    (∀ invoke : List String → Option Json,
        run_speedtest ⟨none, none, invoke⟩ =
          .error "speedtest module/CLI not found. Install with: pip install speedtest-cli or install Ookla Speedtest CLI.") ∧
    (∀ (prog : String) (invoke : List String → Option Json),
        (∀ args d, invoke args = some d → speedtestNormalize d = .error ()) →
        run_speedtest ⟨none, some prog, invoke⟩ =
          .error "Unable to run speedtest via module or CLI.") := by
  constructor
  · intro invoke; rfl
  · intro prog invoke h
    have step : ∀ (args : List String) (rest : List (List String)),
        (∀ d, invoke args = some d → speedtestNormalize d = .error ()) →
        tryVariants invoke (args :: rest) = tryVariants invoke rest := by
      intro args rest hh
      cases hi : invoke args with
      | none => simp [tryVariants, hi]
      | some d =>
        have hn := hh d hi
        simp [tryVariants, hi, hn]
    have e : run_speedtest ⟨none, some prog, invoke⟩ =
        tryVariants invoke
          [[prog, "--json"], [prog, "--format=json"], [prog, "--json"]] := rfl
    rw [e, step _ _ (h _), step _ _ (h _), step _ _ (h _)]
    rfl

/-- C8 witness: no candidate executable; and an executable whose every
invocation produces nothing parseable. -/
theorem run_speedtest_error_messages_witness :
    run_speedtest ⟨none, none, fun _ => none⟩ =
      .error "speedtest module/CLI not found. Install with: pip install speedtest-cli or install Ookla Speedtest CLI." ∧
    run_speedtest ⟨none, some "speedtest-cli", fun _ => none⟩ =
      .error "Unable to run speedtest via module or CLI." :=
  ⟨run_speedtest_error_messages.1 _,
   run_speedtest_error_messages.2 "speedtest-cli" _
     (fun _ _ hd => nomatch hd)⟩

/-- C9 counterexample: with `shell=True` a missing executable does not raise
— the shell completes with status 127 and an error message on stderr — and
`run_cmd` returns that captured text, which is not the empty string. -/
theorem run_cmd_nonempty_on_failure_exit :
    runCmd (fun _ => .completed "" "sh: 1: nosuchtool: not found" 127)
        "nosuchtool" = "sh: 1: nosuchtool: not found" ∧
    runCmd (fun _ => .completed "" "sh: 1: nosuchtool: not found" 127)
        "nosuchtool" ≠ "" := by
  exact ⟨rfl, by decide⟩

/-- C9 amended: every invocation is bounded by the 6-second timeout; an
exception from `subprocess.run` (timeout included) yields the empty string,
while a process that completes — whatever its exit status, including a
shell-reported missing executable — yields the captured stdout plus stderr,
not necessarily empty. -/
theorem run_cmd_output_behavior :
    (∀ (env : String → ProcOutcome) (cmd : String),
        env cmd = .raised → runCmd env cmd = "") ∧
    (∀ (env : String → ProcOutcome) (cmd : String) (out err : String) (rc : Int),
        env cmd = .completed out err rc → runCmd env cmd = out ++ err) ∧
    runCmdTimeoutSeconds = 6 := by
  refine ⟨?_, ?_, rfl⟩
  · intro env cmd h; simp [runCmd, h]
  · intro env cmd out err rc h; simp [runCmd, h]

/-- C9 amended, witness: a timeout yields the empty string; a completed
process yields its captured output. -/
theorem run_cmd_output_behavior_witness :
    runCmd (fun _ => ProcOutcome.raised) "iwconfig 2>/dev/null" = "" ∧
    runCmd (fun _ => .completed "out" "err" 1) "iwconfig 2>/dev/null" =
      "out" ++ "err" :=
  ⟨run_cmd_output_behavior.1 _ _ rfl,
   run_cmd_output_behavior.2.1 _ _ "out" "err" 1 rfl⟩

/-- C10: a required field whose JSON value is 0 is treated as absent: with
`ping: 0` the or-chain falls through to the 0.0 latency default (the result
still carries 0.0, now fabricated); with a top-level `download: 0` or
`upload: 0` the value is discarded and, no alternative field supplying one,
the attempt fails even though the field was present. -/
theorem zero_fields_treated_as_absent (p d u : ℚ) (hd : d ≠ 0) (hu : u ≠ 0) :
    speedtestNormalize
        (.obj [("ping", .num 0), ("download", .num d), ("upload", .num u)]) =
      .ok ⟨d, u, 0⟩ ∧
    speedtestNormalize
        (.obj [("ping", .num p), ("download", .num 0), ("upload", .num u)]) =
      .error () ∧
    speedtestNormalize
        (.obj [("ping", .num p), ("download", .num d), ("upload", .num 0)]) =
      .error () := by
  refine ⟨?_, ?_, ?_⟩
  · simp [speedtestNormalize, pingVal, pingServer, pingLatency, dlChain,
      ulChain, pyGet, jget, truthy, optTruthy, nestedFix, pyFloatOptPyVal,
      pyFloatPyVal, pyFloat, hd, hu]
  · cases hp : pingVal
        (.obj [("ping", .num p), ("download", .num 0), ("upload", .num u)]) with
    | error e => cases e; simp [speedtestNormalize, hp]
    | ok ping =>
      simp [speedtestNormalize, hp, dlChain, ulChain, pyGet, jget, truthy,
        optTruthy, nestedFix, bandwidth8, pySubscript, pyFloat,
        pyFloatOptPyVal, hu]
  · cases hp : pingVal
        (.obj [("ping", .num p), ("download", .num d), ("upload", .num 0)]) with
    | error e => cases e; simp [speedtestNormalize, hp]
    | ok ping =>
      simp [speedtestNormalize, hp, dlChain, ulChain, pyGet, jget, truthy,
        optTruthy, nestedFix, bandwidth8, pySubscript, pyFloat,
        pyFloatOptPyVal, pyFloatPyVal, hd]

/-- C10 witness: the zero-field behavior at concrete values. -/
theorem zero_fields_treated_as_absent_witness :
    speedtestNormalize
        (.obj [("ping", .num 0), ("download", .num 54000000),
               ("upload", .num 12000000)]) = .ok ⟨54000000, 12000000, 0⟩ ∧
    speedtestNormalize
        (.obj [("ping", .num 5), ("download", .num 0),
               ("upload", .num 12000000)]) = .error () ∧
    speedtestNormalize
        (.obj [("ping", .num 5), ("download", .num 54000000),
               ("upload", .num 0)]) = .error () :=
  zero_fields_treated_as_absent 5 54000000 12000000 (by norm_num) (by norm_num)
